import Mathlib

/-
  Verification of the no-consultant-weather core against its
  natural-language specification.

  The definitions below are shallow embeddings of:
    - src/src/utils/radarApi.ts   (buildProductId)
    - src/server/index.js         (parseImageNames, extractTimestamp,
                                   weatherCache, the two API handlers)
    - the geolocation utility     (calculateDistance, findNearestRadars)
  JS numbers used for timestamps are modelled as Int, coordinates as
  real numbers where trigonometry is involved and as rationals where
  only parsing/echoing matters.  Fallible paths are Option/Except.
-/

namespace NCW

/-! ### Product-ID builder (src/src/utils/radarApi.ts, buildProductId) -/

/-- TS union type: type RadarMode = 'rain' | 'doppler'. -/
inductive RadarMode
  | rain
  | doppler
deriving DecidableEq

/-- TS union type: type RadarRange = '64' | '128' | '256' | '512'. -/
inductive RadarRange
  | r64
  | r128
  | r256
  | r512
deriving DecidableEq

/-- The range-suffix conditional chain of buildProductId:
range === '64' ? '4' : range === '128' ? '3' : range === '256' ? '2' : '1'. -/
def rangeSuffix (range : RadarRange) : String :=
  if range = RadarRange.r64 then "4"
  else if range = RadarRange.r128 then "3"
  else if range = RadarRange.r256 then "2"
  else "1"

/-- buildProductId from src/src/utils/radarApi.ts.  In doppler mode a falsy
dopplerProductId (undefined or empty string) logs a warning and falls back to
rain-mode construction; a truthy one is returned unchanged.  Rain mode returns
IDR + baseId + rangeSuffix. -/
def buildProductId (baseId : String) (mode : RadarMode) (range : RadarRange)
    (dopplerProductId : Option String) : String :=
  match mode, dopplerProductId with
  | RadarMode.doppler, some d =>
      if d = "" then "IDR" ++ baseId ++ rangeSuffix range else d
  | RadarMode.doppler, none => "IDR" ++ baseId ++ rangeSuffix range
  | RadarMode.rain, _ => "IDR" ++ baseId ++ rangeSuffix range

/-! ### Response cache (src/server/index.js, weatherCache) -/

/-- CACHE_DURATION = 5 * 60 * 1000 milliseconds. -/
def CACHE_DURATION : Int := 5 * 60 * 1000

/-- A weatherCache entry: { data, timestamp }. -/
structure CacheEntry (α : Type) where
  data : α
  timestamp : Int
deriving DecidableEq

/-- The weatherCache Map, as a partial key-value mapping. -/
abbrev Cache (α : Type) := String → Option (CacheEntry α)

/-- The cache read of the weather handler: the stored payload is used only
when cached is present and Date.now() - cached.timestamp < CACHE_DURATION
(lines 115-118 of src/server/index.js). -/
def cacheGet {α : Type} (cache : Cache α) (key : String) (now : Int) : Option α :=
  match cache key with
  | some e => if now - e.timestamp < CACHE_DURATION then some e.data else none
  | none => none

/-- weatherCache.set(cacheKey, { data, timestamp: Date.now() })
(lines 149-152 of src/server/index.js): unconditional overwrite. -/
def cacheSet {α : Type} (cache : Cache α) (key : String) (v : α) (now : Int) :
    Cache α :=
  fun k => if k = key then some { data := v, timestamp := now } else cache k

/-! ### HTML scraper (src/server/index.js, parseImageNames / extractTimestamp)

The scraper runs the global regex
theImageNames\[\d+\]\s*=\s*["']([^"']+)["'] over the page text with
regex.exec in a loop.  Every quantifier in the pattern is followed by a
character its class excludes, so the greedy regex engine is deterministic
and the loop is exactly: find the leftmost position at which the pattern
matches, record the capture, resume after the match; on failure advance one
character. -/

/-- The double-quote character of the regex quote class. -/
def dquoteCh : Char := Char.ofNat 34

/-- The single-quote character of the regex quote class. -/
def squoteCh : Char := Char.ofNat 39

/-- The regex character class: a quote of either style. -/
def isQuoteCh (c : Char) : Bool := c = dquoteCh ∨ c = squoteCh

/-- The JS regex class for the whitespace quantifiers: the characters matched
by the JavaScript regular-expression escape backslash-s. -/
def isJsWs (c : Char) : Bool :=
  c = ' ' ∨ c.val = 9 ∨ c.val = 10 ∨ c.val = 11 ∨ c.val = 12 ∨ c.val = 13 ∨
  c.val = 0xa0 ∨ c.val = 0x1680 ∨ (0x2000 ≤ c.val ∧ c.val ≤ 0x200a) ∨
  c.val = 0x2028 ∨ c.val = 0x2029 ∨ c.val = 0x202f ∨ c.val = 0x205f ∨
  c.val = 0x3000 ∨ c.val = 0xfeff

/-- Match a literal character sequence at the head of the input, returning
the remaining input. -/
def stripChars : List Char → List Char → Option (List Char)
  | [], l => some l
  | _ :: _, [] => none
  | p :: ps, c :: cs => if c = p then stripChars ps cs else none

/-- Match one fixed character at the head of the input. -/
def expectChar (c : Char) : List Char → Option (List Char)
  | [] => none
  | x :: xs => if x = c then some xs else none

/-- Match one character satisfying a class at the head of the input. -/
def expectClass (p : Char → Bool) : List Char → Option (List Char)
  | [] => none
  | x :: xs => if p x then some xs else none

/-- One attempt of the scraper regex at the current position: literal
"theImageNames[", one or more digits, "]", optional whitespace, "=",
optional whitespace, a quote, a non-empty run of non-quote characters
(the capture), and a closing quote of either style.  Returns the capture
and the input remaining after the match. -/
def matchAt (l : List Char) : Option (String × List Char) :=
  (stripChars "theImageNames[".data l).bind fun l1 =>
    if (l1.takeWhile Char.isDigit).isEmpty then none else
    (expectChar ']' (l1.drop (l1.takeWhile Char.isDigit).length)).bind fun l3 =>
      (expectChar '=' (l3.drop (l3.takeWhile isJsWs).length)).bind fun l5 =>
        (expectClass isQuoteCh (l5.drop (l5.takeWhile isJsWs).length)).bind fun l7 =>
          if (l7.takeWhile (fun c => !(isQuoteCh c))).isEmpty then none else
          (expectClass isQuoteCh
              (l7.drop (l7.takeWhile (fun c => !(isQuoteCh c))).length)).bind fun l9 =>
            some (String.mk (l7.takeWhile (fun c => !(isQuoteCh c))), l9)

/-- The regex.exec loop of parseImageNames: at each position try the pattern;
on success push the capture and resume after the match, on failure advance one
character.  The fuel argument (instantiated with the input length) only makes
the well-founded recursion structural. -/
def scanNames : Nat → List Char → List String
  | 0, _ => []
  | _ + 1, [] => []
  | fuel + 1, c :: cs =>
      match matchAt (c :: cs) with
      | some (cap, rest) => cap :: scanNames fuel rest
      | none => scanNames fuel cs

/-- parseImageNames from src/server/index.js: collect every capture of the
global regex over the page text, in document order. -/
def parseImageNames (html : String) : List String :=
  scanNames html.data.length html.data

/-- Modelled from the spec words for parseImageNames, for comparison with the
implementation: scan the document positions in increasing order; wherever an
occurrence of the assignment pattern begins, collect its quoted path and
continue immediately after that occurrence; occurrences are kept in document
order, duplicates kept as-is. -/
def occurrencesFrom (html : List Char) (pos : Nat) : List String :=
  if html.length ≤ pos then []
  else
    match matchAt (html.drop pos) with
    | some (cap, rest) =>
        -- the match ends at position html.length - rest.length; the max with
        -- pos + 1 only records that a match consumes at least one character
        -- (matchAt_consumes below), it never changes the position
        cap :: occurrencesFrom html (max (pos + 1) (html.length - rest.length))
    | none => occurrencesFrom html (pos + 1)
termination_by html.length - pos
decreasing_by
  · have h1 : pos + 1 ≤ max (pos + 1) (html.length - rest.length) := le_max_left _ _
    omega
  · omega

/-- The spec-side occurrence list for a whole document. -/
def imageOccurrences (html : String) : List String :=
  occurrencesFrom html.data 0

/-- One attempt of the extractTimestamp regex backslash-period T
backslash-period digits backslash-period png at the current position,
returning the captured digit run. -/
def tsMatchAt (l : List Char) : Option String :=
  (stripChars ".T.".data l).bind fun rest =>
    if (rest.takeWhile Char.isDigit).isEmpty then none else
    (stripChars ".png".data (rest.drop (rest.takeWhile Char.isDigit).length)).bind fun _ =>
      some (String.mk (rest.takeWhile Char.isDigit))

/-- The leftmost-match search of String.prototype.match with a non-global
regex: try each position left to right, return the first capture. -/
def tsScan : List Char → Option String
  | [] => none
  | c :: cs =>
      match tsMatchAt (c :: cs) with
      | some s => some s
      | none => tsScan cs

/-- extractTimestamp from src/server/index.js: the first capture of
the timestamp pattern, or the empty string when the pattern is absent. -/
def extractTimestamp (path : String) : String :=
  (tsScan path.data).getD ""

/-- Helper for concrete scraper inputs: one assignment statement
theImageNames[idx] = <q>path<q> with a chosen quote character. -/
def mkAssign (idx : String) (q : Char) (path : String) : String :=
  "theImageNames[" ++ idx ++ "] = " ++ String.mk [q] ++ path ++ String.mk [q]



/-! ### Geo-math and nearest-station ranking (geolocation utility)

calculateDistance uses the haversine formula over JS floating-point numbers;
it is modelled over the real numbers, with Math.atan2 and Math.round modelled
after the JS builtins.  The structural claims proved about findNearestRadars
do not depend on the numeric values of the distances. -/

/-- The RadarLocation record of src/src/types/radar.ts. -/
structure RadarLocation where
  id : String
  name : String
  location : String
  state : String
  baseId : String
  productId : String
  hasDoppler : Bool
  dopplerProductId : Option String
  lat : ℝ
  lng : ℝ

/-- RadarWithDistance extends RadarLocation with the attached distance
field (an integer: calculateDistance rounds to whole kilometers). -/
structure RadarWithDistance extends RadarLocation where
  distance : ℤ

/-- toRadians from the geolocation utility. -/
noncomputable def toRadians (degrees : ℝ) : ℝ :=
  degrees * (Real.pi / 180)

/-- Model of the JS builtin Math.atan2 over the reals. -/
noncomputable def atan2 (y x : ℝ) : ℝ :=
  if 0 < x then Real.arctan (y / x)
  else if x < 0 ∧ 0 ≤ y then Real.arctan (y / x) + Real.pi
  else if x < 0 ∧ y < 0 then Real.arctan (y / x) - Real.pi
  else if x = 0 ∧ 0 < y then Real.pi / 2
  else if x = 0 ∧ y < 0 then -(Real.pi / 2)
  else 0

/-- Model of the JS builtin Math.round: round half toward positive
infinity. -/
noncomputable def jsRound (x : ℝ) : ℤ := ⌊x + 1 / 2⌋

/-- calculateDistance from the geolocation utility: haversine distance on
Earth radius 6371 km, rounded to whole kilometers. -/
noncomputable def calculateDistance (lat1 lng1 lat2 lng2 : ℝ) : ℤ :=
  jsRound (6371 *
    (2 * atan2
      (Real.sqrt
        (Real.sin (toRadians (lat2 - lat1) / 2) * Real.sin (toRadians (lat2 - lat1) / 2) +
          Real.cos (toRadians lat1) * Real.cos (toRadians lat2) *
            Real.sin (toRadians (lng2 - lng1) / 2) * Real.sin (toRadians (lng2 - lng1) / 2)))
      (Real.sqrt
        (1 -
          (Real.sin (toRadians (lat2 - lat1) / 2) * Real.sin (toRadians (lat2 - lat1) / 2) +
            Real.cos (toRadians lat1) * Real.cos (toRadians lat2) *
              Real.sin (toRadians (lng2 - lng1) / 2) * Real.sin (toRadians (lng2 - lng1) / 2))))))

/-- The sort comparator (a, b) => a.distance - b.distance, as the total
preorder it induces.  Array.prototype.sort is a stable sort for a consistent
comparator, and a stable sort is uniquely determined by its preorder, so the
sorted array is modelled by insertion sort under this relation. -/
def byDistance (a b : RadarWithDistance) : Prop := a.distance ≤ b.distance

instance : DecidableRel byDistance := fun a b => Int.decLe a.distance b.distance

instance : IsTotal RadarWithDistance byDistance := ⟨fun x y => Int.le_total x.distance y.distance⟩

instance : IsTrans RadarWithDistance byDistance := ⟨fun _ _ _ => Int.le_trans⟩


/-- The map-and-sort steps of findNearestRadars: spread-copy every station
with its distance from the user point attached, then sort by distance. -/
noncomputable def rankRadars (userLat userLng : ℝ) (radars : List RadarLocation) :
    List RadarWithDistance :=
  (radars.map fun radar =>
    { toRadarLocation := radar,
      distance := calculateDistance userLat userLng radar.lat radar.lng }).insertionSort
    byDistance

/-- findNearestRadars from the geolocation utility.  The final step is
JS: limit ? radarsWithDistance.slice(0, limit) : radarsWithDistance —
note that limit = 0 is falsy, so a zero limit returns the full list exactly
like an omitted limit. -/
noncomputable def findNearestRadars (userLat userLng : ℝ) (radars : List RadarLocation)
    (limit : Option Nat) : List RadarWithDistance :=
  match limit with
  | some n =>
      if n = 0 then rankRadars userLat userLng radars
      else (rankRadars userLat userLng radars).take n
  | none => rankRadars userLat userLng radars

/-- State-passing embedding of the findNearestRadars call for the frame
property: radars.map reads the input array and allocates a fresh array of
spread-copied objects, the in-place Array.prototype.sort mutates only that
fresh array, and slice copies again, so the caller gets back the station
table exactly as it was alongside the result. -/
noncomputable def findNearestRadarsSt (userLat userLng : ℝ) (radars : List RadarLocation)
    (limit : Option Nat) : List RadarLocation × List RadarWithDistance :=
  (radars,
    match limit with
    | some n =>
        if n = 0 then
          ((radars.map fun radar =>
            { toRadarLocation := radar,
              distance := calculateDistance userLat userLng radar.lat radar.lng }).insertionSort
            byDistance)
        else
          ((radars.map fun radar =>
            { toRadarLocation := radar,
              distance := calculateDistance userLat userLng radar.lat radar.lng }).insertionSort
            byDistance).take n
    | none =>
        (radars.map fun radar =>
          { toRadarLocation := radar,
            distance := calculateDistance userLat userLng radar.lat radar.lng }).insertionSort
          byDistance)

/-- A concrete station (the Brisbane entry of the static radar table), used
for concrete instances. -/
noncomputable def brisbane : RadarLocation :=
  { id := "66", name := "Brisbane", location := "Marburg", state := "QLD",
    baseId := "66", productId := "IDR663", hasDoppler := true,
    dopplerProductId := some "IDR66I", lat := -27.6081, lng := 152.54 }



/-! ### HTTP surface (src/server/index.js, the two API handlers)

The handlers are modelled as functions of the request inputs, the upstream
fetch results (the external collaborator: one structure per upstream call,
carrying the ok flag, status, statusText and parsed body), the cache state
and the clock.  Each handler returns its HTTP response together with the new
cache state and a trace of the cache and upstream accesses it performed.
The JS builtin parseFloat is an external collaborator too and is passed in
as a function returning none for NaN. -/

/-- The observable part of a settled fetch: ok, status, statusText and the
parsed body. -/
structure FetchRes (α : Type) where
  ok : Bool
  status : Nat
  statusText : String
  data : α
deriving DecidableEq

/-- An entry of the radar images response. -/
structure RadarImage where
  url : String
  timestamp : String
deriving DecidableEq

/-- The response of GET /api/radar/:productId. -/
inductive RadarApiResponse
  | error (status : Nat) (error : String)
  | images (status : Nat) (images : List RadarImage)
deriving DecidableEq

/-- The handler of GET /api/radar/:productId: on a non-ok upstream status,
pass the status through with an error body; otherwise scrape the page body;
zero matches is a 404 "No radar images found"; otherwise 200 with the list of
absolute URLs and extracted timestamps. -/
def handleRadar (resp : FetchRes String) : RadarApiResponse :=
  if resp.ok = false then
    RadarApiResponse.error resp.status ("Failed to fetch radar data: " ++ resp.statusText)
  else if (parseImageNames resp.data).isEmpty then
    RadarApiResponse.error 404 "No radar images found"
  else
    RadarApiResponse.images 200 ((parseImageNames resp.data).map fun path =>
      { url := "https://reg.bom.gov.au" ++ path, timestamp := extractTimestamp path })

/-- One candidate of the BoM locations response. -/
structure LocCandidate where
  geohash : String
  name : String
  state : String
deriving DecidableEq

/-- The parsed body of the BoM locations response: { data: [...] }. -/
structure LocJson where
  data : List LocCandidate
deriving DecidableEq

/-- fetchLocationGeohash: a non-ok status throws (modelled as Except.error,
caught by the handler as a 500); a non-empty candidate list yields its first
entry; an empty one yields null. -/
def fetchLocationGeohash (resp : FetchRes LocJson) : Except String (Option LocCandidate) :=
  if resp.ok = false then
    Except.error ("BoM location API error: " ++ resp.statusText)
  else
    match resp.data.data with
    | [] => Except.ok none
    | location :: _ =>
        Except.ok (some { geohash := location.geohash, name := location.name,
                          state := location.state })

/-- The observations payload is passed through opaquely by the server. -/
abbrev ObsData := String

/-- One daily-forecast entry, passed through opaquely by the server. -/
abbrev FcItem := String

/-- The reshaped forecast: { today: first entry, daily: full array }. -/
structure ForecastOut where
  today : FcItem
  daily : List FcItem
deriving DecidableEq

/-- fetchObservations: a non-ok status logs a warning and yields null;
otherwise result.data || null. -/
def fetchObservations (resp : FetchRes (Option ObsData)) : Option ObsData :=
  if resp.ok = false then none
  else resp.data

/-- fetchDailyForecast: a non-ok status logs a warning and yields null;
a non-empty data array is reshaped to { today, daily }; an empty one yields
null. -/
def fetchDailyForecast (resp : FetchRes (List FcItem)) : Option ForecastOut :=
  if resp.ok = false then none
  else
    match resp.data with
    | [] => none
    | today :: _ => some { today := today, daily := resp.data }

/-- The location part of the weather response, echoing the parsed request
coordinates. -/
structure WeatherLocationOut where
  name : String
  state : String
  geohash : String
  lat : ℚ
  lng : ℚ
deriving DecidableEq

/-- The assembled weather payload { location, observations, forecast }. -/
structure WeatherPayload where
  location : WeatherLocationOut
  observations : Option ObsData
  forecast : Option ForecastOut
deriving DecidableEq

/-- The response of GET /api/weather. -/
inductive WeatherApiResponse
  | error (status : Nat) (error : String)
  | errorMsg (status : Nat) (error : String) (message : String)
  | ok (status : Nat) (data : WeatherPayload)
deriving DecidableEq

/-- The upstream world a weather request can reach: the settled results of
the locations, observations and daily-forecast fetches. -/
structure WeatherEnv where
  locResp : FetchRes LocJson
  obsResp : FetchRes (Option ObsData)
  fcResp : FetchRes (List FcItem)
deriving DecidableEq

/-- The cache reads, cache writes and upstream calls a handler performed,
in order. -/
structure Trace where
  cacheGets : List String
  cacheSets : List String
  upstreamCalls : List String
deriving DecidableEq

/-- JS falsiness of an optional query-parameter string: undefined or "". -/
def strFalsy (o : Option String) : Prop := o = none ∨ o = some ""

instance : DecidablePred strFalsy := fun o => by
  unfold strFalsy
  infer_instance

/-- The cache key: the string concatenation of the two parsed coordinates,
lat ++ "," ++ lng. -/
def coordKey (latitude longitude : ℚ) : String :=
  toString latitude ++ "," ++ toString longitude

/-- The handler of GET /api/weather: reject falsy lat/lng with a 400; parse
both floats and reject NaN with a 400 (both before touching the cache or
upstream); serve a fresh cache entry directly; otherwise resolve the
geocode — a thrown location-fetch error becomes the catch-all 500, an absent
candidate (or falsy geohash) a 404 — then fetch observations and forecast,
each degrading to null independently, assemble the payload, write it to the
cache and answer 200. -/
def handleWeather (pf : String → Option ℚ) (lat lng : Option String)
    (cache : Cache WeatherPayload) (now : Int) (env : WeatherEnv) :
    WeatherApiResponse × Cache WeatherPayload × Trace :=
  if strFalsy lat ∨ strFalsy lng then
    (WeatherApiResponse.error 400 "Missing required parameters: lat and lng", cache,
      { cacheGets := [], cacheSets := [], upstreamCalls := [] })
  else
    match pf (lat.getD ""), pf (lng.getD "") with
    | none, _ =>
        (WeatherApiResponse.error 400 "Invalid coordinates: lat and lng must be numbers",
          cache, { cacheGets := [], cacheSets := [], upstreamCalls := [] })
    | some _, none =>
        (WeatherApiResponse.error 400 "Invalid coordinates: lat and lng must be numbers",
          cache, { cacheGets := [], cacheSets := [], upstreamCalls := [] })
    | some latitude, some longitude =>
        match cacheGet cache (coordKey latitude longitude) now with
        | some data =>
            (WeatherApiResponse.ok 200 data, cache,
              { cacheGets := [coordKey latitude longitude], cacheSets := [],
                upstreamCalls := [] })
        | none =>
            match fetchLocationGeohash env.locResp with
            | Except.error msg =>
                (WeatherApiResponse.errorMsg 500 "Failed to fetch weather data" msg,
                  cache,
                  { cacheGets := [coordKey latitude longitude], cacheSets := [],
                    upstreamCalls := ["locations"] })
            | Except.ok none =>
                (WeatherApiResponse.error 404
                    "Could not find location data for these coordinates", cache,
                  { cacheGets := [coordKey latitude longitude], cacheSets := [],
                    upstreamCalls := ["locations"] })
            | Except.ok (some loc) =>
                if loc.geohash = "" then
                  (WeatherApiResponse.error 404
                      "Could not find location data for these coordinates", cache,
                    { cacheGets := [coordKey latitude longitude], cacheSets := [],
                      upstreamCalls := ["locations"] })
                else
                  (WeatherApiResponse.ok 200
                      { location := { name := loc.name, state := loc.state,
                                      geohash := loc.geohash, lat := latitude,
                                      lng := longitude },
                        observations := fetchObservations env.obsResp,
                        forecast := fetchDailyForecast env.fcResp },
                    cacheSet cache (coordKey latitude longitude)
                      { location := { name := loc.name, state := loc.state,
                                      geohash := loc.geohash, lat := latitude,
                                      lng := longitude },
                        observations := fetchObservations env.obsResp,
                        forecast := fetchDailyForecast env.fcResp } now,
                    { cacheGets := [coordKey latitude longitude],
                      cacheSets := [coordKey latitude longitude],
                      upstreamCalls := ["locations", "observations", "forecasts/daily"] })


end NCW

namespace NCW

/-! ### Theorems for the product-ID builder and the cache -/

/-- C1: for every base station id and every range, rain-mode buildProductId
returns exactly "IDR" ++ baseId ++ suffix with suffix 4/3/2/1 for ranges
64/128/256/512, the base id inserted verbatim; being a total Lean function it
never throws. -/
theorem buildProductId_rain_spec (baseId : String) (d : Option String) :
    buildProductId baseId RadarMode.rain RadarRange.r64 d = "IDR" ++ baseId ++ "4" ∧
    buildProductId baseId RadarMode.rain RadarRange.r128 d = "IDR" ++ baseId ++ "3" ∧
    buildProductId baseId RadarMode.rain RadarRange.r256 d = "IDR" ++ baseId ++ "2" ∧
    buildProductId baseId RadarMode.rain RadarRange.r512 d = "IDR" ++ baseId ++ "1" := by
  refine ⟨rfl, rfl, rfl, rfl⟩

/-- C2: doppler-mode buildProductId returns a non-empty dopplerProductId
unchanged regardless of range, and falls back to the rain-mode string for the
same range when the doppler id is absent or empty. -/
theorem buildProductId_doppler_spec (baseId : String) (range : RadarRange) :
    (∀ d : String, d ≠ "" →
        buildProductId baseId RadarMode.doppler range (some d) = d) ∧
    buildProductId baseId RadarMode.doppler range none =
      buildProductId baseId RadarMode.rain range none ∧
    buildProductId baseId RadarMode.doppler range (some "") =
      buildProductId baseId RadarMode.rain range (some "") := by
  refine ⟨fun d hd => ?_, rfl, by simp [buildProductId]⟩
  simp [buildProductId, hd]

theorem buildProductId_doppler_spec_witness :
    buildProductId "66" RadarMode.doppler RadarRange.r128 (some "IDR66I") = "IDR66I" :=
  (buildProductId_doppler_spec "66" RadarRange.r128).1 "IDR66I" (by decide)

/-- C5: a put followed by a get with no clock advance returns the stored
payload; for a key holding an entry, a get returns the stored payload exactly
when now - storedAt < 5 minutes (a stale entry is treated as absent); a put
unconditionally overwrites the entry for its key and stamps the current
time. -/
theorem weatherCache_ttl_spec {α : Type} (cache : Cache α) (k : String) (v : α)
    (t now : Int) (e : CacheEntry α) :
    cacheGet (cacheSet cache k v t) k t = some v ∧
    (cache k = some e →
      (cacheGet cache k now = some e.data ↔ now - e.timestamp < CACHE_DURATION)) ∧
    (cache k = some e → CACHE_DURATION ≤ now - e.timestamp →
      cacheGet cache k now = none) ∧
    cacheSet cache k v t k = some { data := v, timestamp := t } := by
  refine ⟨?_, fun he => ?_, fun he hstale => ?_, by simp [cacheSet]⟩
  · simp [cacheGet, cacheSet, CACHE_DURATION]
  · simp only [cacheGet, he]
    constructor
    · intro h
      by_contra hc
      rw [if_neg hc] at h
      exact Option.noConfusion h
    · intro h
      rw [if_pos h]
  · simp only [cacheGet, he]
    rw [if_neg (by omega)]

theorem weatherCache_ttl_spec_witness :
    cacheGet (cacheSet (fun _ => none) "k" 5 0) "k" 0 = some 5 ∧
    cacheGet (cacheSet (fun _ => (none : Option (CacheEntry Nat))) "k" 5 0) "k" 300000
      = none :=
  ⟨(weatherCache_ttl_spec (fun _ => none) "k" 5 0 0 { data := 5, timestamp := 0 }).1,
   (weatherCache_ttl_spec (cacheSet (fun _ => none) "k" 5 0) "k" 5 0 300000
      { data := 5, timestamp := 0 }).2.2.1 (by simp [cacheSet]) (by decide)⟩

/-! ### Lemmas about the regex scanners -/

theorem suffix_drop_eq {l1 l : List Char} (h : l1 <:+ l) :
    l.drop (l.length - l1.length) = l1 := by
  obtain ⟨t, rfl⟩ := h
  have : (t ++ l1).length - l1.length = t.length := by
    simp only [List.length_append]
    omega
  rw [this, List.drop_left]

theorem stripChars_spec : ∀ (p l l1 : List Char), stripChars p l = some l1 →
    l1 <:+ l ∧ l1.length + p.length = l.length := by
  intro p
  induction p with
  | nil =>
      intro l l1 h
      rw [stripChars] at h
      cases h
      exact ⟨List.suffix_rfl, by simp⟩
  | cons c cs ih =>
      intro l l1 h
      cases l with
      | nil => exact Option.noConfusion h
      | cons x xs =>
          rw [stripChars] at h
          by_cases hx : x = c
          · rw [if_pos hx] at h
            obtain ⟨h1, h2⟩ := ih xs l1 h
            refine ⟨h1.trans (List.suffix_cons x xs), ?_⟩
            simp only [List.length_cons]
            omega
          · rw [if_neg hx] at h
            exact Option.noConfusion h

theorem expectChar_spec (c : Char) (l l1 : List Char) (h : expectChar c l = some l1) :
    l1 <:+ l ∧ l1.length + 1 = l.length := by
  cases l with
  | nil => exact Option.noConfusion h
  | cons x xs =>
      rw [expectChar] at h
      by_cases hx : x = c
      · rw [if_pos hx] at h
        cases h
        exact ⟨List.suffix_cons x _, by simp⟩
      · rw [if_neg hx] at h
        exact Option.noConfusion h

theorem expectClass_spec (p : Char → Bool) (l l1 : List Char)
    (h : expectClass p l = some l1) : l1 <:+ l ∧ l1.length + 1 = l.length := by
  cases l with
  | nil => exact Option.noConfusion h
  | cons x xs =>
      rw [expectClass] at h
      by_cases hx : p x
      · rw [if_pos hx] at h
        cases h
        exact ⟨List.suffix_cons x _, by simp⟩
      · rw [if_neg hx] at h
        exact Option.noConfusion h

theorem matchAt_consumes (l : List Char) (cap : String) (rest : List Char)
    (h : matchAt l = some (cap, rest)) : rest <:+ l ∧ rest.length < l.length := by
  rw [matchAt] at h
  cases h1 : stripChars "theImageNames[".data l with
  | none => rw [h1, Option.none_bind] at h; exact Option.noConfusion h
  | some l1 =>
  rw [h1, Option.some_bind] at h
  by_cases hds : (l1.takeWhile Char.isDigit).isEmpty
  · rw [if_pos hds] at h; exact Option.noConfusion h
  rw [if_neg hds] at h
  cases h3 : expectChar ']' (l1.drop (l1.takeWhile Char.isDigit).length) with
  | none => rw [h3, Option.none_bind] at h; exact Option.noConfusion h
  | some l3 =>
  rw [h3, Option.some_bind] at h
  cases h5 : expectChar '=' (l3.drop (l3.takeWhile isJsWs).length) with
  | none => rw [h5, Option.none_bind] at h; exact Option.noConfusion h
  | some l5 =>
  rw [h5, Option.some_bind] at h
  cases h7 : expectClass isQuoteCh (l5.drop (l5.takeWhile isJsWs).length) with
  | none => rw [h7, Option.none_bind] at h; exact Option.noConfusion h
  | some l7 =>
  rw [h7, Option.some_bind] at h
  by_cases hbody : (l7.takeWhile (fun c => !(isQuoteCh c))).isEmpty
  · rw [if_pos hbody] at h; exact Option.noConfusion h
  rw [if_neg hbody] at h
  cases h9 : expectClass isQuoteCh
      (l7.drop (l7.takeWhile (fun c => !(isQuoteCh c))).length) with
  | none => rw [h9, Option.none_bind] at h; exact Option.noConfusion h
  | some l9 =>
  rw [h9, Option.some_bind] at h
  injection h with h0
  rw [Prod.mk.injEq] at h0
  obtain ⟨hcap, hrest⟩ := h0
  subst hrest
  have s1 := stripChars_spec _ l l1 h1
  have s3 := expectChar_spec ']' _ _ h3
  have s5 := expectChar_spec '=' _ _ h5
  have s7 := expectClass_spec isQuoteCh _ _ h7
  have s9 := expectClass_spec isQuoteCh _ _ h9
  have t9 : l9 <:+ l7 := s9.1.trans (List.drop_suffix _ _)
  have t7 : l7 <:+ l5 := s7.1.trans (List.drop_suffix _ _)
  have t5 : l5 <:+ l3 := s5.1.trans (List.drop_suffix _ _)
  have t3 : l3 <:+ l1 := s3.1.trans (List.drop_suffix _ _)
  have t91 : l9 <:+ l1 := ((t9.trans t7).trans t5).trans t3
  have hpat : ("theImageNames[".data).length = 14 := rfl
  refine ⟨t91.trans s1.1, ?_⟩
  have hlen : l9.length ≤ l1.length := t91.length_le
  have hl1 : l1.length + 14 = l.length := by rw [← hpat]; exact s1.2
  omega

theorem scanNames_eq_occurrencesFrom (html : List Char) :
    ∀ fuel pos, html.length - pos ≤ fuel →
      scanNames fuel (html.drop pos) = occurrencesFrom html pos := by
  intro fuel
  induction fuel with
  | zero =>
      intro pos h
      rw [occurrencesFrom, if_pos (by omega)]
      rw [List.drop_eq_nil_of_le (by omega)]
      rfl
  | succ fuel ih =>
      intro pos h
      by_cases hp : html.length ≤ pos
      · rw [occurrencesFrom, if_pos hp, List.drop_eq_nil_of_le hp]
        rfl
      · rw [occurrencesFrom, if_neg hp]
        push_neg at hp
        cases hd : html.drop pos with
        | nil =>
            exfalso
            have := List.length_drop pos html
            rw [hd] at this
            simp at this
            omega
        | cons c cs =>
            cases hm : matchAt (c :: cs) with
            | none =>
                simp only [scanNames, hm]
                have hcs : cs = html.drop (pos + 1) := by
                  have ht := List.tail_drop html pos
                  rw [hd] at ht
                  simpa using ht
                rw [hcs]
                exact ih (pos + 1) (by omega)
            | some pr =>
                obtain ⟨cap, rest⟩ := pr
                have hcons := matchAt_consumes (c :: cs) cap rest hm
                simp only [scanNames, hm]
                congr 1
                have hdrop : (html.drop pos).length = html.length - pos :=
                  List.length_drop pos html
                rw [hd] at hdrop
                have hrl : rest.length < html.length - pos := by
                  have := hcons.2
                  omega
                have hsufh : rest <:+ html := by
                  refine hcons.1.trans ?_
                  rw [← hd]
                  exact List.drop_suffix pos html
                have hrlen : rest.length ≤ html.length := hsufh.length_le
                have hmax : max (pos + 1) (html.length - rest.length) =
                    html.length - rest.length := by omega
                rw [hmax]
                have hrest : html.drop (html.length - rest.length) = rest :=
                  suffix_drop_eq hsufh
                have hgoal := ih (html.length - rest.length) (by omega)
                rw [hrest] at hgoal
                exact hgoal

theorem scanNames_nil_of_no_match :
    ∀ (fuel : Nat) (l : List Char), (∀ t ∈ l.tails, matchAt t = none) →
      scanNames fuel l = [] := by
  intro fuel
  induction fuel with
  | zero => intro l _; rfl
  | succ fuel ih =>
      intro l hl
      cases l with
      | nil => rfl
      | cons c cs =>
          have hm : matchAt (c :: cs) = none :=
            hl (c :: cs) ((List.mem_tails _ _).2 List.suffix_rfl)
          simp only [scanNames, hm]
          refine ih cs fun t ht => ?_
          refine hl t ?_
          rw [List.tails_cons]
          exact List.mem_cons_of_mem _ ht


/-- C3: parseImageNames returns exactly the quoted path strings of all
occurrences of the assignment pattern theImageNames[digits] = "path" (either
quote style) in document match order: it agrees with the position-by-position
occurrence scan everywhere, returns the empty sequence (not an error) when no
position matches, and on a concrete document with three assignments of mixed
quote styles and non-contiguous unsorted indices returns exactly those three
paths in source order, duplicates kept. -/
theorem parseImageNames_spec :
    (∀ html : String, parseImageNames html = imageOccurrences html) ∧
    (∀ html : String, (∀ t ∈ html.data.tails, matchAt t = none) →
        parseImageNames html = []) ∧
    parseImageNames (mkAssign "9" dquoteCh "/radar/a.png" ++ " x " ++
        mkAssign "57" squoteCh "/radar/b.png" ++ " y " ++
        mkAssign "3" dquoteCh "/radar/a.png") =
      ["/radar/a.png", "/radar/b.png", "/radar/a.png"] := by
  refine ⟨fun html => ?_, fun html h => scanNames_nil_of_no_match _ _ h, ?_⟩
  · have h0 := scanNames_eq_occurrencesFrom html.data html.data.length 0 (by omega)
    simpa [parseImageNames, imageOccurrences] using h0
  · decide

theorem parseImageNames_spec_witness :
    (∀ t ∈ ("<p>hi</p>" : String).data.tails, matchAt t = none) ∧
    parseImageNames "<p>hi</p>" = [] :=
  ⟨by decide, parseImageNames_spec.2.1 "<p>hi</p>" (by decide)⟩

theorem tsMatchAt_digits (l : List Char) (s : String) (h : tsMatchAt l = some s) :
    s ≠ "" ∧ ∀ c ∈ s.data, c.isDigit := by
  rw [tsMatchAt] at h
  cases h1 : stripChars ".T.".data l with
  | none => rw [h1, Option.none_bind] at h; exact Option.noConfusion h
  | some rest =>
  rw [h1, Option.some_bind] at h
  by_cases hds : (rest.takeWhile Char.isDigit).isEmpty
  · rw [if_pos hds] at h; exact Option.noConfusion h
  rw [if_neg hds] at h
  cases h2 : stripChars ".png".data (rest.drop (rest.takeWhile Char.isDigit).length) with
  | none => rw [h2, Option.none_bind] at h; exact Option.noConfusion h
  | some r2 =>
  rw [h2, Option.some_bind] at h
  cases h
  constructor
  · intro hc
    have hdata : rest.takeWhile Char.isDigit = [] := congrArg String.data hc
    rw [hdata] at hds
    exact hds rfl
  · intro c hc
    exact List.mem_takeWhile_imp hc

theorem tsScan_spec : ∀ l : List Char,
    (∀ s, tsScan l = some s → s ≠ "" ∧ ∀ c ∈ s.data, c.isDigit) ∧
    ((∀ t ∈ l.tails, tsMatchAt t = none) → tsScan l = none) := by
  intro l
  induction l with
  | nil => exact ⟨fun s h => Option.noConfusion h, fun _ => rfl⟩
  | cons c cs ih =>
      refine ⟨fun s h => ?_, fun hnone => ?_⟩
      · rw [tsScan] at h
        cases hm : tsMatchAt (c :: cs) with
        | some s2 =>
            rw [hm] at h
            cases h
            exact tsMatchAt_digits _ _ hm
        | none =>
            rw [hm] at h
            exact ih.1 s h
      · rw [tsScan]
        have hm : tsMatchAt (c :: cs) = none :=
          hnone _ ((List.mem_tails _ _).2 List.suffix_rfl)
        rw [hm]
        refine ih.2 fun t ht => hnone t ?_
        rw [List.tails_cons]
        exact List.mem_cons_of_mem _ ht

/-- C4 counterexample: on the path "/radar/IDR663.T.5.png" the code returns
the non-empty timestamp "5", which is not 12 digits long, refuting the claim
that a non-empty result always matches the 12-digit pattern. -/
theorem extractTimestamp_counterexample :
    extractTimestamp "/radar/IDR663.T.5.png" = "5" ∧
    ¬(extractTimestamp "/radar/IDR663.T.5.png" = "" ∨
      (extractTimestamp "/radar/IDR663.T.5.png").length = 12) := by decide

/-- C4 (amended): extractTimestamp always returns a string and never throws;
when the path has no .T.digits.png segment (including a wrong marker letter
such as .X.) the result is the empty string, never null; and a non-empty
result is always a non-empty run of decimal digits (the digits between the
.T. and .png markers) — the code does not enforce a 12-digit length. -/
theorem extractTimestamp_spec :
    (∀ path : String, extractTimestamp path = "" ∨
        (extractTimestamp path ≠ "" ∧ ∀ c ∈ (extractTimestamp path).data, c.isDigit)) ∧
    (∀ path : String, (∀ t ∈ path.data.tails, tsMatchAt t = none) →
        extractTimestamp path = "") ∧
    extractTimestamp "/radar/IDR663.T.202512040100.png" = "202512040100" ∧
    extractTimestamp "/radar/IDR663.png" = "" ∧
    extractTimestamp "/radar/IDR663.X.202512040100.png" = "" := by
  refine ⟨fun path => ?_, fun path h => ?_, by decide, by decide, by decide⟩
  · cases hscan : tsScan path.data with
    | none =>
        left
        simp [extractTimestamp, hscan]
    | some s =>
        right
        have hdig := (tsScan_spec path.data).1 s hscan
        have he : extractTimestamp path = s := by simp [extractTimestamp, hscan]
        rw [he]
        exact hdig
  · have hn := (tsScan_spec path.data).2 h
    simp [extractTimestamp, hn]

theorem extractTimestamp_spec_witness :
    (∀ t ∈ ("abc" : String).data.tails, tsMatchAt t = none) ∧
    extractTimestamp "abc" = "" :=
  ⟨by decide, extractTimestamp_spec.2.1 "abc" (by decide)⟩


/-! ### Lemmas and claims about the nearest-station ranking -/

theorem filter_distance_orderedInsert (k : ℤ) (x : RadarWithDistance)
    (l : List RadarWithDistance) :
    (List.orderedInsert byDistance x l).filter (fun y => y.distance = k) =
      (if x.distance = k then [x] else []) ++ l.filter (fun y => y.distance = k) := by
  induction l with
  | nil =>
      by_cases hx : x.distance = k <;>
        simp [List.orderedInsert, List.filter_cons, hx]
  | cons y l ih =>
      rw [List.orderedInsert]
      by_cases hxy : byDistance x y
      · rw [if_pos hxy]
        by_cases hx : x.distance = k <;> simp [List.filter_cons, hx]
      · rw [if_neg hxy]
        by_cases hy : y.distance = k
        · have hxk : ¬x.distance = k := by
            intro hx
            exact hxy (le_of_eq (hx.trans hy.symm))
          simp [List.filter_cons, hy, hxk, ih]
        · simp [List.filter_cons, hy, ih]

theorem filter_distance_insertionSort (k : ℤ) (l : List RadarWithDistance) :
    (l.insertionSort byDistance).filter (fun y => y.distance = k) =
      l.filter (fun y => y.distance = k) := by
  induction l with
  | nil => rfl
  | cons a l ih =>
      rw [List.insertionSort, filter_distance_orderedInsert, ih]
      by_cases ha : a.distance = k <;> simp [List.filter_cons, ha]

/-- C6 counterexample: with an explicit limit of 0 (a falsy value in JS) the
code returns the full ranked list, not min(limit, stations.length) = 0
entries: on one station with limit 0 the result has length 1. -/
theorem findNearestRadars_counterexample :
    (findNearestRadars 0 0 [brisbane] (some 0)).length = 1 ∧
    ¬((findNearestRadars 0 0 [brisbane] (some 0)).length = min 0 1) := by
  have hlen : (findNearestRadars 0 0 [brisbane] (some 0)).length = 1 := by
    simp [findNearestRadars, rankRadars]
  exact ⟨hlen, by rw [hlen]; decide⟩

/-- C6 (amended): findNearestRadars never errors; with no limit it returns a
permutation of the input stations each spread-copied with the attached
haversine distance field; the result distances are always non-decreasing; the
sort is stable (equal-distance stations keep their input relative order, as
witnessed by per-distance filters); a non-zero limit n truncates the ranked
list to its first n entries, of which there are min n (number of stations);
a limit of 0 is falsy in JS and behaves like an omitted limit, returning the
full ranked list; an empty station list yields an empty result. -/
theorem findNearestRadars_spec (u v : ℝ) (radars : List RadarLocation) :
    ((findNearestRadars u v radars none).Perm
      (radars.map fun radar =>
        { toRadarLocation := radar,
          distance := calculateDistance u v radar.lat radar.lng })) ∧
    (∀ limit : Option Nat,
      ((findNearestRadars u v radars limit).map (fun x => x.distance)).Pairwise
        (fun a b => a ≤ b)) ∧
    (∀ k : ℤ,
      (findNearestRadars u v radars none).filter (fun x => x.distance = k) =
        (radars.map fun radar =>
          { toRadarLocation := radar,
            distance := calculateDistance u v radar.lat radar.lng }).filter
          (fun x => x.distance = k)) ∧
    (∀ n : Nat, n ≠ 0 →
      findNearestRadars u v radars (some n) =
        (findNearestRadars u v radars none).take n) ∧
    (∀ n : Nat, n ≠ 0 →
      (findNearestRadars u v radars (some n)).length = min n radars.length) ∧
    (findNearestRadars u v radars none).length = radars.length ∧
    findNearestRadars u v radars (some 0) = findNearestRadars u v radars none ∧
    (∀ limit : Option Nat, findNearestRadars u v ([] : List RadarLocation) limit = []) := by
  have hsorted : List.Sorted byDistance (rankRadars u v radars) :=
    List.sorted_insertionSort byDistance _
  have hlen : (rankRadars u v radars).length = radars.length := by
    rw [rankRadars, List.length_insertionSort, List.length_map]
  refine ⟨?_, ?_, ?_, ?_, ?_, ?_, ?_, ?_⟩
  · exact List.perm_insertionSort byDistance _
  · intro limit
    have hpw : (rankRadars u v radars).Pairwise byDistance := hsorted
    have hres : (findNearestRadars u v radars limit).Pairwise byDistance := by
      match limit with
      | none => exact hpw
      | some n =>
          rw [findNearestRadars]
          by_cases hn : n = 0
          · rw [if_pos hn]; exact hpw
          · rw [if_neg hn]
            exact hpw.sublist (List.take_sublist n _)
    rw [List.pairwise_map]
    exact hres
  · intro k
    exact filter_distance_insertionSort k _
  · intro n hn
    simp [findNearestRadars, hn]
  · intro n hn
    rw [findNearestRadars]
    rw [if_neg hn, List.length_take, hlen]
  · exact hlen
  · simp [findNearestRadars]
  · intro limit
    match limit with
    | none => simp [findNearestRadars, rankRadars]
    | some n =>
        by_cases hn : n = 0 <;> simp [findNearestRadars, rankRadars, hn]

theorem findNearestRadars_spec_witness :
    (1 : Nat) ≠ 0 ∧
    findNearestRadars 0 0 [brisbane] (some 1) =
      (findNearestRadars 0 0 [brisbane] none).take 1 :=
  ⟨by decide, (findNearestRadars_spec 0 0 [brisbane]).2.2.2.1 1 (by decide)⟩

/-- C10: findNearestRadars never mutates its arguments: in the state-passing
embedding of the call, the station table comes back unchanged (same length,
same elements, same order, same fields), the value computed agrees with the
pure ranking, and repeated calls over the same shared station table are
order-independent. -/
theorem findNearestRadars_pure (u v : ℝ) (radars : List RadarLocation)
    (limit : Option Nat) :
    (findNearestRadarsSt u v radars limit).1 = radars ∧
    (findNearestRadarsSt u v radars limit).2 = findNearestRadars u v radars limit ∧
    (∀ u2 v2 limit2,
      findNearestRadars u2 v2 (findNearestRadarsSt u v radars limit).1 limit2 =
        findNearestRadars u2 v2 radars limit2) :=
  ⟨rfl, rfl, fun _ _ _ => rfl⟩


/-! ### Claims about the HTTP surface -/

/-- C9: a weather request whose lat or lng parameter is missing (falsy) or
fails float parsing is answered 400 with an error body, before any cache
access and before any upstream call. -/
theorem handleWeather_rejects_bad_coords (pf : String → Option ℚ)
    (lat lng : Option String) (cache : Cache WeatherPayload) (now : Int)
    (env : WeatherEnv)
    (h : strFalsy lat ∨ strFalsy lng ∨ pf (lat.getD "") = none ∨
      pf (lng.getD "") = none) :
    (∃ msg, (handleWeather pf lat lng cache now env).1 =
      WeatherApiResponse.error 400 msg) ∧
    (handleWeather pf lat lng cache now env).2.1 = cache ∧
    (handleWeather pf lat lng cache now env).2.2 =
      { cacheGets := [], cacheSets := [], upstreamCalls := [] } := by
  by_cases hf : strFalsy lat ∨ strFalsy lng
  · refine ⟨⟨"Missing required parameters: lat and lng", ?_⟩, ?_, ?_⟩ <;>
      simp [handleWeather, hf]
  · have hn : pf (lat.getD "") = none ∨ pf (lng.getD "") = none := by
      rcases h with h1 | h2 | h3 | h4
      · exact absurd (Or.inl h1) hf
      · exact absurd (Or.inr h2) hf
      · exact Or.inl h3
      · exact Or.inr h4
    rcases hn with h3 | h4
    · refine ⟨⟨"Invalid coordinates: lat and lng must be numbers", ?_⟩, ?_, ?_⟩ <;>
        simp [handleWeather, hf, h3]
    · cases hp : pf (lat.getD "") with
      | none =>
          refine ⟨⟨"Invalid coordinates: lat and lng must be numbers", ?_⟩, ?_, ?_⟩ <;>
            simp [handleWeather, hf, hp]
      | some a =>
          refine ⟨⟨"Invalid coordinates: lat and lng must be numbers", ?_⟩, ?_, ?_⟩ <;>
            simp [handleWeather, hf, hp, h4]

theorem handleWeather_rejects_bad_coords_witness :
    (∃ msg, (handleWeather (fun _ => none) (some "x") (some "y") (fun _ => none) 0
        { locResp := { ok := true, status := 200, statusText := "OK", data := { data := [] } },
          obsResp := { ok := true, status := 200, statusText := "OK", data := none },
          fcResp := { ok := true, status := 200, statusText := "OK", data := [] } }).1 =
      WeatherApiResponse.error 400 msg) ∧
    (handleWeather (fun _ => none) (some "x") (some "y") (fun _ => none) 0
        { locResp := { ok := true, status := 200, statusText := "OK", data := { data := [] } },
          obsResp := { ok := true, status := 200, statusText := "OK", data := none },
          fcResp := { ok := true, status := 200, statusText := "OK", data := [] } }).2.1 =
      (fun _ => none) ∧
    (handleWeather (fun _ => none) (some "x") (some "y") (fun _ => none) 0
        { locResp := { ok := true, status := 200, statusText := "OK", data := { data := [] } },
          obsResp := { ok := true, status := 200, statusText := "OK", data := none },
          fcResp := { ok := true, status := 200, statusText := "OK", data := [] } }).2.2 =
      { cacheGets := [], cacheSets := [], upstreamCalls := [] } :=
  handleWeather_rejects_bad_coords (fun _ => none) (some "x") (some "y")
    (fun _ => none) 0
    { locResp := { ok := true, status := 200, statusText := "OK", data := { data := [] } },
      obsResp := { ok := true, status := 200, statusText := "OK", data := none },
      fcResp := { ok := true, status := 200, statusText := "OK", data := [] } }
    (Or.inr (Or.inr (Or.inl rfl)))

/-- C7: a successful upstream call with no extractable content is a 404
distinct from a fetch failure: a radar scrape with zero parseImageNames
matches answers 404 "No radar images found", and a geocode lookup with zero
candidates answers 404 "Could not find location data for these coordinates";
neither is a 500 or an upstream-status passthrough. -/
theorem noData_responses_404 :
    (∀ resp : FetchRes String, resp.ok = true → parseImageNames resp.data = [] →
      handleRadar resp = RadarApiResponse.error 404 "No radar images found") ∧
    (∀ (pf : String → Option ℚ) (lat lng : Option String)
        (cache : Cache WeatherPayload) (now : Int) (env : WeatherEnv) (a b : ℚ),
      ¬strFalsy lat → ¬strFalsy lng →
      pf (lat.getD "") = some a → pf (lng.getD "") = some b →
      cacheGet cache (coordKey a b) now = none →
      env.locResp.ok = true → env.locResp.data.data = [] →
      (handleWeather pf lat lng cache now env).1 =
        WeatherApiResponse.error 404
          "Could not find location data for these coordinates") := by
  constructor
  · intro resp hok hempty
    simp [handleRadar, hok, hempty]
  · intro pf lat lng cache now env a b h1 h2 hp hq hc hok hempty
    have hf : ¬(strFalsy lat ∨ strFalsy lng) := by tauto
    have hloc : fetchLocationGeohash env.locResp = Except.ok none := by
      simp [fetchLocationGeohash, hok, hempty]
    simp [handleWeather, hf, hp, hq, hc, hloc]

theorem noData_responses_404_witness :
    handleRadar
        { ok := true, status := 200, statusText := "OK", data := "<html></html>" } =
      RadarApiResponse.error 404 "No radar images found" ∧
    (handleWeather (fun _ => some 0) (some "0") (some "0") (fun _ => none) 0
        { locResp := { ok := true, status := 200, statusText := "OK", data := { data := [] } },
          obsResp := { ok := true, status := 200, statusText := "OK", data := none },
          fcResp := { ok := true, status := 200, statusText := "OK", data := [] } }).1 =
      WeatherApiResponse.error 404 "Could not find location data for these coordinates" :=
  ⟨noData_responses_404.1 _ rfl (by decide),
   noData_responses_404.2 (fun _ => some 0) (some "0") (some "0") (fun _ => none) 0
     { locResp := { ok := true, status := 200, statusText := "OK", data := { data := [] } },
       obsResp := { ok := true, status := 200, statusText := "OK", data := none },
       fcResp := { ok := true, status := 200, statusText := "OK", data := [] } }
     0 0 (by decide) (by decide) rfl rfl rfl rfl rfl⟩

/-- C8: once the geocode has resolved (first candidate present, truthy
geohash), the weather aggregation always completes with a 200 response of
shape { location, observations, forecast } in which each of the two parallel
sub-fetches contributes independently: a non-ok observations or forecast
fetch yields null for exactly that sub-field, leaving the sibling
untouched. -/
theorem weather_partial_failure (pf : String → Option ℚ) (lat lng : Option String)
    (cache : Cache WeatherPayload) (now : Int) (env : WeatherEnv) (a b : ℚ)
    (loc : LocCandidate) (rest : List LocCandidate)
    (h1 : ¬strFalsy lat) (h2 : ¬strFalsy lng)
    (hp : pf (lat.getD "") = some a) (hq : pf (lng.getD "") = some b)
    (hc : cacheGet cache (coordKey a b) now = none)
    (hok : env.locResp.ok = true)
    (hd : env.locResp.data.data = loc :: rest)
    (hg : loc.geohash ≠ "") :
    (handleWeather pf lat lng cache now env).1 =
      WeatherApiResponse.ok 200
        { location := { name := loc.name, state := loc.state, geohash := loc.geohash,
                        lat := a, lng := b },
          observations := fetchObservations env.obsResp,
          forecast := fetchDailyForecast env.fcResp } ∧
    (env.obsResp.ok = false → fetchObservations env.obsResp = none) ∧
    (env.fcResp.ok = false → fetchDailyForecast env.fcResp = none) := by
  have hf : ¬(strFalsy lat ∨ strFalsy lng) := by tauto
  have hloc : fetchLocationGeohash env.locResp =
      Except.ok (some { geohash := loc.geohash, name := loc.name,
                        state := loc.state }) := by
    simp [fetchLocationGeohash, hok, hd]
  refine ⟨?_, fun hobs => by simp [fetchObservations, hobs],
    fun hfc => by simp [fetchDailyForecast, hfc]⟩
  simp [handleWeather, hf, hp, hq, hc, hloc, hg]

theorem weather_partial_failure_witness :
    (handleWeather (fun _ => some 0) (some "0") (some "0") (fun _ => none) 0
        { locResp :=
            { ok := true, status := 200, statusText := "OK",
              data := { data := [{ geohash := "r1r0f", name := "Brisbane", state := "QLD" }] } },
          obsResp :=
            { ok := false, status := 503, statusText := "Service Unavailable", data := none },
          fcResp :=
            { ok := true, status := 200, statusText := "OK", data := ["sunny"] } }).1 =
      WeatherApiResponse.ok 200
        { location := { name := "Brisbane", state := "QLD", geohash := "r1r0f",
                        lat := 0, lng := 0 },
          observations := none,
          forecast := some { today := "sunny", daily := ["sunny"] } } := by
  have h := weather_partial_failure (fun _ => some 0) (some "0") (some "0")
    (fun _ => none) 0
    { locResp :=
        { ok := true, status := 200, statusText := "OK",
          data := { data := [{ geohash := "r1r0f", name := "Brisbane", state := "QLD" }] } },
      obsResp :=
        { ok := false, status := 503, statusText := "Service Unavailable", data := none },
      fcResp :=
        { ok := true, status := 200, statusText := "OK", data := ["sunny"] } }
    0 0 { geohash := "r1r0f", name := "Brisbane", state := "QLD" } []
    (by decide) (by decide) rfl rfl rfl rfl rfl (by decide)
  rw [h.1]
  rfl

end NCW
